import Mathlib

/-!
# Verification of the L&N STEM Rooftop data logger

A shallow embedding of `src/RoofTopProgram.ino` (Arduino C++): an embedded
data logger that once per second reads three sensors (UV index, infrared
temperature, luminosity), timestamps the readings from a DS1307 real-time
clock, and appends a comma-separated record to a per-day `.csv` file on an
SD card.

The embedding models:
* Arduino decimal rendering `String(n, DEC)` of unsigned integers (`decStr`);
* the `DateTime` value returned by `rtc.now()`;
* the timestamp string, year-suffix and filename built in `setup`/`loop`;
* sensor readings as rationals (the C code uses `float`; arithmetic is
  modelled exactly over `ℚ`), with the conversion `tempF`;
* the SD filesystem as a partial map from names to lists of lines, with
  `SD.open(..., FILE_WRITE)` + `println` as append (creating the file when
  absent) and an explicit per-cycle open-success oracle;
* `setup` and one `loop` iteration (`step`), plus `run` iterating the loop
  over a list of per-cycle environments and `program` combining both.
-/

-- The rational operations are `@[irreducible]` by default, which blocks
-- `decide` on concrete record lines; the kernel reduces them regardless.
set_option allowUnsafeReducibility true
attribute [semireducible] Rat.mul Rat.add Rat.div Rat.inv Rat.neg Rat.sub Rat.blt

/-- One decimal digit `d < 10` as a character, `0 ↦ '0', …, 9 ↦ '9'`. -/
def digitCh (d : ℕ) : Char := Char.ofNat (48 + d)

/-- Fuel-indexed most-significant-first decimal digit list of `n`
(empty for `n = 0`); the fuel makes the recursion structural. -/
def decChars : ℕ → ℕ → List Char
  | 0, _ => []
  | fuel + 1, n => if n = 0 then [] else decChars fuel (n / 10) ++ [digitCh (n % 10)]

/-- Arduino `String(n, DEC)` for an unsigned integer `n`: the plain decimal
numeral, with no padding and no sign. -/
def decStr (n : ℕ) : String := if n = 0 then "0" else String.mk (decChars n n)

/-- The value of a digit character. -/
def chVal (c : Char) : ℕ := c.toNat - 48

/-- Decode a most-significant-first digit character list back to a number. -/
def charsVal (l : List Char) : ℕ := l.foldl (fun a c => 10 * a + chVal c) 0

/-- The `DateTime` value produced by `rtc.now()` (RTClib). -/
structure DateTime where
  hour : ℕ
  minute : ℕ
  second : ℕ
  day : ℕ
  month : ℕ
  year : ℕ
deriving DecidableEq

/-- `String(now.hour(), DEC) + ":" + String(now.minute(), DEC) + ":" +
String(now.second(), DEC)` (line 183 of the source). -/
def timeStampStr (t : DateTime) : String :=
  decStr t.hour ++ ":" ++ decStr t.minute ++ ":" ++ decStr t.second

/-- `String currentYear = String(now.year(), DEC); currentYear.remove(0,2);`
(lines 128–129 / 184–185): the year rendered in decimal with its first two
characters removed. -/
def yearSuffix (y : ℕ) : String := String.mk ((decStr y).data.drop 2)

/-- `String(now.month(), DEC) + "-" + String(now.day(), DEC) + "-" +
currentYear` (lines 130 / 199): the per-day file identity, no zero-padding. -/
def fileNameOf (t : DateTime) : String :=
  decStr t.month ++ "-" ++ decStr t.day ++ "-" ++ yearSuffix t.year

/-- The actual file name on the card: `fileName + ".csv"`. -/
def csvName (t : DateTime) : String := fileNameOf t ++ ".csv"

/-- Modelled from the spec: the ArdusatSDK sensor drivers are external
library code, not part of `src/`. Each per-cycle `read` either yields a
valid measurement or fails; on failure the raw struct field the caller
reads carries no measurement — the spec names zero as the masking value a
conversion must not launder ("mask it as zero"), so the sentinel left in
the struct is modelled as `0`. -/
def sensorValue : Option ℚ → ℚ
  | some v => v
  | none => 0

/-- `tempF = ((temp.t * 9) / 5) + 32` (line 192). The C code computes this
over `float`; the arithmetic is modelled exactly over `ℚ`. -/
def tempF (t : ℚ) : ℚ := ((t * 9) / 5) + 32

/-- Modelled from the spec: the Arduino `String(numeric)` constructor is
external library code, not part of `src/`; §6 of the spec pins record
fields as "a plain decimal text representation", so an integral value
renders as its plain decimal numeral with no decimal point (the precision
of a non-integral value is left implementation-defined by §9 and is
modelled as two truncated decimal places). -/
def numStr (q : ℚ) : String :=
  let sign := if q < 0 then "-" else ""
  let a := q.num.natAbs
  if q.den = 1 then sign ++ decStr a
  else
    sign ++ decStr (a / q.den) ++ "." ++
      String.mk [digitCh (a * 100 / q.den % 100 / 10), digitCh (a * 100 / q.den % 10)]

/-- The inputs one `loop` iteration draws from the outside world: the clock
reading, the three sensor read results (`none` = read failed), and whether
`SD.open(fileName + ".csv", FILE_WRITE)` succeeds this cycle. -/
structure CycleEnv where
  now : DateTime
  uv : Option ℚ
  ir : Option ℚ
  lum : Option ℚ
  openOk : Bool

/-- `dataString` (line 198): `timeStamp + "," + String(uv_light.uvindex) +
"," + String(tempF) + "," + String(luminosity.lux)`. -/
def dataString (e : CycleEnv) : String :=
  timeStampStr e.now ++ "," ++ numStr (sensorValue e.uv) ++ "," ++
    numStr (tempF (sensorValue e.ir)) ++ "," ++ numStr (sensorValue e.lum)

/-- The header line written on file creation (line 141). -/
def headerLine : String := "Time,UV,IR,Lum"

/-- The SD card contents: each file name maps to its list of lines. -/
def FS : Type := String → Option (List String)

/-- The empty card: no files. -/
def emptyFS : FS := fun _ => none

/-- `SD.open(name, FILE_WRITE)` followed by `println line` and `close()`:
creates the file when absent, then appends one line. -/
def fsWrite (fs : FS) (name line : String) : FS :=
  fun n => if n = name then some ((fs name).getD [] ++ [line]) else fs n

/-- State carried from `setup` into the loop: whether `SD.begin` succeeded
(`sdOk`; when false every later `SD.open` fails) and the card contents. -/
structure SysState where
  sdOk : Bool
  fs : FS

/-- The inputs `setup` draws from the outside world: whether `rtc.begin()`
finds the clock, whether the clock `isrunning()`, whether `SD.begin(10)`
succeeds, the boot-time `rtc.now()`, and whether the header-creating
`SD.open` succeeds. -/
structure SetupEnv where
  rtcFound : Bool
  rtcRunning : Bool
  sdInitOk : Bool
  bootTime : DateTime
  headerOpenOk : Bool

/-- The observable outcome of `setup`: whether it hung in `while (1);`,
whether the three sensor `begin…Sensor()` calls were reached, the lines
printed on the primary `Serial` transport, and the resulting state. -/
structure SetupResult where
  halted : Bool
  sensorsBegan : Bool
  serialOut : List String
  state : SysState

/-- `setup()` (lines 82–151): check the RTC (halting in `while (1);` when
absent), warn when the RTC is not running, begin the three sensors,
initialize the SD card (returning early on failure), and create the
boot-day file with the header line when it does not yet exist. -/
def setup (env : SetupEnv) (fs0 : FS) : SetupResult :=
  if !env.rtcFound then
    { halted := true, sensorsBegan := false,
      serialOut := ["Couldn't find RTC"], state := ⟨false, fs0⟩ }
  else
    let warn := if !env.rtcRunning then ["RTC is NOT running!"] else []
    if !env.sdInitOk then
      { halted := false, sensorsBegan := true,
        serialOut := warn ++ ["Initializing SD card...", "initialization failed!"],
        state := ⟨false, fs0⟩ }
    else
      let name := csvName env.bootTime
      if (fs0 name).isSome then
        { halted := false, sensorsBegan := true,
          serialOut := warn ++ ["Initializing SD card..."], state := ⟨true, fs0⟩ }
      else if env.headerOpenOk then
        { halted := false, sensorsBegan := true,
          serialOut := warn ++ ["Initializing SD card...", headerLine],
          state := ⟨true, fsWrite fs0 name headerLine⟩ }
      else
        { halted := false, sensorsBegan := true,
          serialOut := warn ++ ["Initializing SD card...", "Couldn't access file"],
          state := ⟨true, fs0⟩ }

/-- One `loop()` iteration (lines 163–215): read the clock and sensors,
build `dataString` and `fileName`, open the day's file for append and
write the record (mirroring it to the dual `mySerial` sink), or print the
`"Couldn't access file"` diagnostic when the open fails. Returns the new
state and the lines printed on the dual sink this cycle. -/
def step (e : CycleEnv) (s : SysState) : SysState × List String :=
  if s.sdOk && e.openOk then
    (⟨s.sdOk, fsWrite s.fs (csvName e.now) (dataString e)⟩, [dataString e])
  else
    (s, ["Couldn't access file"])

/-- The poll loop run over a finite prefix of cycles: `loop` iterated once
per `CycleEnv`, collecting the dual-sink output. -/
def run (envs : List CycleEnv) (s : SysState) : SysState × List String :=
  match envs with
  | [] => (s, [])
  | e :: rest =>
    let r1 := step e s
    let r2 := run rest r1.1
    (r2.1, r1.2 ++ r2.2)

/-- The whole program observed for any finite number of cycles: `setup`,
then — unless `setup` hung in `while (1);` — the poll loop. -/
def program (senv : SetupEnv) (envs : List CycleEnv) (fs0 : FS) :
    SysState × List String :=
  let r := setup senv fs0
  if r.halted then (r.state, []) else run envs r.state

/-! ## Properties of the decimal rendering -/

theorem decChars_zero (f : ℕ) : decChars f 0 = [] := by
  cases f <;> simp [decChars]

theorem decChars_succ (f n : ℕ) (hne : n ≠ 0) :
    decChars (f + 1) n = decChars f (n / 10) ++ [digitCh (n % 10)] := by
  show (if n = 0 then [] else decChars f (n / 10) ++ [digitCh (n % 10)]) = _
  rw [if_neg hne]

theorem decChars_congr : ∀ f g n : ℕ, n ≤ f → n ≤ g → decChars f n = decChars g n := by
  intro f
  induction f with
  | zero =>
    intro g n hf _
    interval_cases n
    simp [decChars_zero]
  | succ f ih =>
    intro g n hf hg
    rcases Nat.eq_zero_or_pos n with h0 | hpos
    · subst h0; simp [decChars_zero]
    · obtain ⟨g', rfl⟩ : ∃ g', g = g' + 1 := ⟨g - 1, by omega⟩
      have hd : n / 10 < n := Nat.div_lt_self hpos (by norm_num)
      rw [decChars_succ f n (by omega), decChars_succ g' n (by omega),
        ih g' (n / 10) (by omega) (by omega)]

theorem decChars_expand (f n : ℕ) (hpos : 0 < n) (hf : n ≤ f) :
    decChars f n = decChars f (n / 10) ++ [digitCh (n % 10)] := by
  obtain ⟨f', rfl⟩ : ∃ f', f = f' + 1 := ⟨f - 1, by omega⟩
  have hd : n / 10 < n := Nat.div_lt_self hpos (by norm_num)
  rw [decChars_succ f' n (by omega),
    decChars_congr f' (f' + 1) (n / 10) (by omega) (by omega)]

theorem chVal_digitCh : ∀ d : ℕ, d < 10 → chVal (digitCh d) = d := by decide

theorem charsVal_append_digit (l : List Char) (c : Char) :
    charsVal (l ++ [c]) = 10 * charsVal l + chVal c := by
  simp [charsVal, List.foldl_append]

theorem charsVal_decChars : ∀ f n : ℕ, n ≤ f → charsVal (decChars f n) = n := by
  intro f
  induction f with
  | zero =>
    intro n hf
    interval_cases n
    simp [decChars_zero, charsVal]
  | succ f ih =>
    intro n hf
    rcases Nat.eq_zero_or_pos n with h0 | hpos
    · subst h0; simp [decChars_zero, charsVal]
    · have hd : n / 10 < n := Nat.div_lt_self hpos (by norm_num)
      rw [decChars_succ f n (by omega), charsVal_append_digit,
        ih (n / 10) (by omega), chVal_digitCh (n % 10) (by omega)]
      omega

theorem decStr_inj (m n : ℕ) (h : decStr m = decStr n) : m = n := by
  have hd := congrArg String.data h
  rcases Nat.eq_zero_or_pos m with hm | hm <;> rcases Nat.eq_zero_or_pos n with hn | hn
  · omega
  · subst hm
    simp only [decStr, if_pos rfl, if_neg (by omega : n ≠ 0)] at hd
    have := charsVal_decChars n n le_rfl
    rw [← hd] at this
    simp [charsVal, chVal] at this
    omega
  · subst hn
    simp only [decStr, if_pos rfl, if_neg (by omega : m ≠ 0)] at hd
    have := charsVal_decChars m m le_rfl
    rw [hd] at this
    simp [charsVal, chVal] at this
    omega
  · simp only [decStr, if_neg (by omega : m ≠ 0), if_neg (by omega : n ≠ 0)] at hd
    have h1 := charsVal_decChars m m le_rfl
    have h2 := charsVal_decChars n n le_rfl
    rw [← h1, ← h2, hd]

theorem decChars_mem : ∀ f n : ℕ, ∀ c ∈ decChars f n, ∃ d, d < 10 ∧ c = digitCh d := by
  intro f
  induction f with
  | zero => intro n c hc; simp [decChars] at hc
  | succ f ih =>
    intro n c hc
    rcases Nat.eq_zero_or_pos n with h0 | hpos
    · subst h0; simp [decChars_zero] at hc
    · rw [decChars_succ f n (by omega)] at hc
      rcases List.mem_append.mp hc with h | h
      · exact ih (n / 10) c h
      · exact ⟨n % 10, by omega, by simpa using h⟩

theorem decStr_mem (n : ℕ) : ∀ c ∈ (decStr n).data, ∃ d, d < 10 ∧ c = digitCh d := by
  intro c hc
  rcases Nat.eq_zero_or_pos n with h0 | hpos
  · subst h0
    simp only [decStr, if_pos rfl] at hc
    exact ⟨0, by omega, by simpa using hc⟩
  · simp only [decStr, if_neg (by omega : n ≠ 0)] at hc
    exact decChars_mem n n c hc

theorem digitCh_ne_dash : ∀ d : ℕ, d < 10 → digitCh d ≠ '-' := by decide

theorem decStr_no_dash (n : ℕ) : '-' ∉ (decStr n).data := by
  intro hc
  obtain ⟨d, hd, hcd⟩ := decStr_mem n '-' hc
  exact digitCh_ne_dash d hd hcd.symm

theorem append_dash_inj :
    ∀ l1 l2 r1 r2 : List Char, '-' ∉ l1 → '-' ∉ l2 →
      l1 ++ '-' :: r1 = l2 ++ '-' :: r2 → l1 = l2 ∧ r1 = r2 := by
  intro l1
  induction l1 with
  | nil =>
    intro l2 r1 r2 _ h2 h
    cases l2 with
    | nil => simpa using h
    | cons a l2' =>
      simp only [List.nil_append, List.cons_append, List.cons.injEq] at h
      exact absurd (h.1 ▸ List.mem_cons_self a l2') h2
  | cons a l1' ih =>
    intro l2 r1 r2 h1 h2 h
    cases l2 with
    | nil =>
      simp only [List.nil_append, List.cons_append, List.cons.injEq] at h
      exact absurd (h.1 ▸ List.mem_cons_self a l1') h1
    | cons b l2' =>
      simp only [List.cons_append, List.cons.injEq] at h
      obtain ⟨hab, hrest⟩ := h
      have := ih l2' r1 r2 (fun hm => h1 (List.mem_cons_of_mem a hm))
        (fun hm => h2 (List.mem_cons_of_mem b hm)) hrest
      exact ⟨by rw [hab, this.1], this.2⟩

theorem digitCh_inj : ∀ a < 10, ∀ b < 10, digitCh a = digitCh b → a = b := by decide

theorem decStr_four (y : ℕ) (h1 : 1000 ≤ y) (h2 : y ≤ 9999) :
    (decStr y).data =
      [digitCh (y / 1000), digitCh (y / 100 % 10), digitCh (y / 10 % 10), digitCh (y % 10)] := by
  have e1 : decChars y y = decChars y (y / 10) ++ [digitCh (y % 10)] :=
    decChars_expand y y (by omega) le_rfl
  have e2 : decChars y (y / 10) = decChars y (y / 10 / 10) ++ [digitCh (y / 10 % 10)] :=
    decChars_expand y (y / 10) (by omega) (by omega)
  have e3 : decChars y (y / 100) = decChars y (y / 100 / 10) ++ [digitCh (y / 100 % 10)] :=
    decChars_expand y (y / 100) (by omega) (by omega)
  have e4 : decChars y (y / 1000) = decChars y (y / 1000 / 10) ++ [digitCh (y / 1000 % 10)] :=
    decChars_expand y (y / 1000) (by omega) (by omega)
  have d2 : y / 10 / 10 = y / 100 := by omega
  have d3 : y / 100 / 10 = y / 1000 := by omega
  have d4 : y / 1000 / 10 = 0 := by omega
  have d5 : y / 1000 % 10 = y / 1000 := by omega
  simp only [decStr, if_neg (by omega : y ≠ 0)]
  rw [e1, e2, d2, e3, d3, e4, d4, d5, decChars_zero]
  simp

theorem yearSuffix_four (y : ℕ) (h1 : 1000 ≤ y) (h2 : y ≤ 9999) :
    (yearSuffix y).data = [digitCh (y / 10 % 10), digitCh (y % 10)] := by
  simp [yearSuffix, decStr_four y h1 h2]

theorem yearSuffix_eq_iff (y1 y2 : ℕ) (h1 : 1000 ≤ y1) (h2 : y1 ≤ 9999)
    (h3 : 1000 ≤ y2) (h4 : y2 ≤ 9999) :
    yearSuffix y1 = yearSuffix y2 ↔ y1 % 100 = y2 % 100 := by
  constructor
  · intro h
    have hd := congrArg String.data h
    rw [yearSuffix_four y1 h1 h2, yearSuffix_four y2 h3 h4] at hd
    simp only [List.cons.injEq, and_true] at hd
    have ha := digitCh_inj _ (by omega) _ (by omega) hd.1
    have hb := digitCh_inj _ (by omega) _ (by omega) hd.2
    omega
  · intro h
    apply String.ext
    rw [yearSuffix_four y1 h1 h2, yearSuffix_four y2 h3 h4]
    have ha : y1 / 10 % 10 = y2 / 10 % 10 := by omega
    have hb : y1 % 10 = y2 % 10 := by omega
    rw [ha, hb]

theorem fileNameOf_data (t : DateTime) :
    (fileNameOf t).data =
      (decStr t.month).data ++ '-' ::
        ((decStr t.day).data ++ '-' :: (yearSuffix t.year).data) := by
  simp [fileNameOf, String.data_append]

theorem decStr_ne_nil (n : ℕ) : (decStr n).data ≠ [] := by
  rcases Nat.eq_zero_or_pos n with h0 | hpos
  · subst h0; simp [decStr]
  · simp only [decStr, if_neg (by omega : n ≠ 0)]
    rw [decChars_expand n n hpos le_rfl]
    simp

theorem digitCh_ne_T : ∀ d < 10, digitCh d ≠ 'T' := by decide

theorem dataString_ne_header (e : CycleEnv) : dataString e ≠ headerLine := by
  intro h
  obtain ⟨c, cs, hcc⟩ := List.exists_cons_of_ne_nil (decStr_ne_nil e.now.hour)
  have h2 : (dataString e).data.head? = some c := by
    simp [dataString, timeStampStr, String.data_append, hcc]
  rw [h] at h2
  have h3 : headerLine.data.head? = some 'T' := rfl
  rw [h3] at h2
  have hmem : c ∈ (decStr e.now.hour).data := by rw [hcc]; exact List.mem_cons_self c cs
  obtain ⟨d, hd10, hcd⟩ := decStr_mem e.now.hour c hmem
  exact digitCh_ne_T d hd10 (by rw [← hcd, ← Option.some.injEq, h2])

/-! ## Behaviour of `setup`, `step` and `run` -/

theorem setup_fs_other (senv : SetupEnv) (fs0 : FS) (n : String)
    (hn : n ≠ csvName senv.bootTime) : (setup senv fs0).state.fs n = fs0 n := by
  obtain ⟨rf, rr, sd, bt, ho⟩ := senv
  cases rf <;> cases rr <;> cases sd <;> cases ho <;>
    cases hfs : (fs0 (csvName bt)).isSome <;>
      simp_all [setup, fsWrite]

theorem run_sd_down (envs : List CycleEnv) (fs : FS) :
    run envs ⟨false, fs⟩ = (⟨false, fs⟩, envs.map fun _ => "Couldn't access file") := by
  induction envs with
  | nil => simp [run]
  | cons e rest ih => simp [run, step, ih]

theorem run_fs_append (envs : List CycleEnv) (s : SysState) (name : String) (l : List String)
    (hsd : s.sdOk = true) (hcur : s.fs name = some l)
    (hsame : ∀ e ∈ envs, csvName e.now = name ∧ e.openOk = true) :
    (run envs s).1.fs name = some (l ++ envs.map dataString) := by
  induction envs generalizing s l with
  | nil => simpa [run] using hcur
  | cons e rest ih =>
    obtain ⟨hename, heop⟩ := hsame e (List.mem_cons_self e rest)
    have hstep : step e s =
        (⟨s.sdOk, fsWrite s.fs (csvName e.now) (dataString e)⟩, [dataString e]) := by
      simp [step, hsd, heop]
    have hfs : (fsWrite s.fs (csvName e.now) (dataString e)) name =
        some (l ++ [dataString e]) := by
      simp [fsWrite, hename, hcur]
    simp only [run, hstep]
    rw [ih ⟨s.sdOk, fsWrite s.fs (csvName e.now) (dataString e)⟩ (l ++ [dataString e])
      hsd hfs (fun e' he' => hsame e' (List.mem_cons_of_mem e he'))]
    simp

theorem run_lines_from (Q : String → Prop) (envs : List CycleEnv) (s : SysState) (name : String)
    (hcur : ∀ lines, s.fs name = some lines → ∀ l ∈ lines, Q l)
    (hnew : ∀ e ∈ envs, csvName e.now = name → Q (dataString e)) :
    ∀ lines, (run envs s).1.fs name = some lines → ∀ l ∈ lines, Q l := by
  induction envs generalizing s with
  | nil => simpa [run] using hcur
  | cons e rest ih =>
    simp only [run]
    apply ih (step e s).1
    · intro lines hl l hml
      by_cases hok : (s.sdOk && e.openOk) = true
      · simp only [step, if_pos hok] at hl
        by_cases hname : name = csvName e.now
        · rw [show fsWrite s.fs (csvName e.now) (dataString e) name =
              some ((s.fs name).getD [] ++ [dataString e]) by
            simp [fsWrite, hname]] at hl
          injection hl with h'
          subst h'
          rcases List.mem_append.mp hml with hml2 | hml2
          · cases hfs : s.fs name with
            | none => rw [hfs] at hml2; simp at hml2
            | some old =>
              rw [hfs] at hml2
              exact hcur old hfs l (by simpa using hml2)
          · have hle : l = dataString e := by simpa using hml2
            exact hle ▸ hnew e (List.mem_cons_self e rest) hname.symm
        · rw [show fsWrite s.fs (csvName e.now) (dataString e) name = s.fs name by
            simp [fsWrite, hname]] at hl
          exact hcur lines hl l hml
      · simp only [step, if_neg hok] at hl
        exact hcur lines hl l hml
    · exact fun e' he' => hnew e' (List.mem_cons_of_mem e he')

/-! ## The claims -/

/-- C1: end-to-end record scenario — when the clock reads 2016-03-29
14:05:07 and the sensors return UV raw 1, IR raw 25, luminosity raw 400,
the cycle appends exactly the line `14:5:7,1,77,400` to the file
`3-29-16.csv`, and on the first write to that file (fresh card) the line
is preceded by the header `Time,UV,IR,Lum`. -/
theorem endToEnd_record_scenario :
    dataString ⟨⟨14, 5, 7, 29, 3, 2016⟩, some 1, some 25, some 400, true⟩
        = "14:5:7,1,77,400" ∧
    csvName ⟨14, 5, 7, 29, 3, 2016⟩ = "3-29-16.csv" ∧
    (program ⟨true, true, true, ⟨14, 5, 7, 29, 3, 2016⟩, true⟩
        [⟨⟨14, 5, 7, 29, 3, 2016⟩, some 1, some 25, some 400, true⟩] emptyFS).1.fs
        "3-29-16.csv"
      = some ["Time,UV,IR,Lum", "14:5:7,1,77,400"] := by
  decide

/-- C3: the code does not propagate a failed infrared read — line 192
computes `tempF = ((temp.t * 9) / 5) + 32` unconditionally, with no
failure branch, so a failed read's sentinel 0 becomes the plausible
temperature 32 in the record. The failing input: IR read fails while
clock reads 14:05:07, UV = 1, luminosity = 400. -/
theorem ir_failure_masked_as_32 :
    tempF (sensorValue none) = 32 ∧
    dataString ⟨⟨14, 5, 7, 29, 3, 2016⟩, some 1, none, some 400, true⟩
      = "14:5:7,1,32,400" := by
  decide

/-- C4: filename determinism and distinctness — for four-digit years, two
timestamps derive the same file identity exactly when their
(month, day, last-two-year-digits) triples agree; in particular differing
triples give differing identities. -/
theorem fileName_identity_iff (t1 t2 : DateTime)
    (h1 : 1000 ≤ t1.year) (h2 : t1.year ≤ 9999)
    (h3 : 1000 ≤ t2.year) (h4 : t2.year ≤ 9999) :
    fileNameOf t1 = fileNameOf t2 ↔
      t1.month = t2.month ∧ t1.day = t2.day ∧ t1.year % 100 = t2.year % 100 := by
  constructor
  · intro h
    have hd := congrArg String.data h
    rw [fileNameOf_data, fileNameOf_data] at hd
    obtain ⟨hm, hrest⟩ := append_dash_inj _ _ _ _
      (decStr_no_dash t1.month) (decStr_no_dash t2.month) hd
    obtain ⟨hday, hyy⟩ := append_dash_inj _ _ _ _
      (decStr_no_dash t1.day) (decStr_no_dash t2.day) hrest
    refine ⟨decStr_inj _ _ (String.ext hm), decStr_inj _ _ (String.ext hday), ?_⟩
    exact (yearSuffix_eq_iff _ _ h1 h2 h3 h4).mp (String.ext hyy)
  · intro ⟨hm, hd', hy⟩
    unfold fileNameOf
    rw [hm, hd']
    congr 1
    exact (yearSuffix_eq_iff _ _ h1 h2 h3 h4).mpr hy

/-- Witness for C4: the boot timestamp 2016-03-29 14:05:07 and a different
time of day in year 1916 share (month, day, year-suffix) and so derive the
same identity `3-29-16`. -/
theorem fileName_identity_iff_witness :
    fileNameOf ⟨14, 5, 7, 29, 3, 2016⟩ = fileNameOf ⟨1, 2, 3, 29, 3, 1916⟩ ∧
    fileNameOf ⟨14, 5, 7, 29, 3, 2016⟩ = "3-29-16" :=
  ⟨(fileName_identity_iff ⟨14, 5, 7, 29, 3, 2016⟩ ⟨1, 2, 3, 29, 3, 1916⟩
      (by decide) (by decide) (by decide) (by decide)).mpr (by decide),
    by decide⟩

/-- C5: boot halt — when the clock device is absent at startup
(`rtc.begin()` fails), `setup` hangs in `while (1);`, so for a run of any
length no record is appended, no file is created (the card contents are
exactly the initial ones), and nothing is printed to the dual sink. -/
theorem boot_halt_no_logging (senv : SetupEnv) (envs : List CycleEnv) (fs0 : FS)
    (h : senv.rtcFound = false) :
    (setup senv fs0).halted = true ∧
    (program senv envs fs0).1.fs = fs0 ∧
    (program senv envs fs0).2 = [] := by
  simp [setup, program, h]

/-- Witness for C5: with the clock absent, a three-cycle run leaves the
empty card empty and prints nothing. -/
theorem boot_halt_no_logging_witness :
    (setup ⟨false, true, true, ⟨14, 5, 7, 29, 3, 2016⟩, true⟩ emptyFS).halted = true ∧
    (program ⟨false, true, true, ⟨14, 5, 7, 29, 3, 2016⟩, true⟩
      [⟨⟨14, 5, 7, 29, 3, 2016⟩, some 1, some 25, some 400, true⟩,
       ⟨⟨14, 5, 8, 29, 3, 2016⟩, some 1, some 25, some 400, true⟩,
       ⟨⟨14, 5, 9, 29, 3, 2016⟩, some 1, some 25, some 400, true⟩] emptyFS).1.fs = emptyFS ∧
    (program ⟨false, true, true, ⟨14, 5, 7, 29, 3, 2016⟩, true⟩
      [⟨⟨14, 5, 7, 29, 3, 2016⟩, some 1, some 25, some 400, true⟩,
       ⟨⟨14, 5, 8, 29, 3, 2016⟩, some 1, some 25, some 400, true⟩,
       ⟨⟨14, 5, 9, 29, 3, 2016⟩, some 1, some 25, some 400, true⟩] emptyFS).2 = [] :=
  boot_halt_no_logging _ _ _ rfl

/-- C6: temperature conversion — for every raw reading `t` (negative,
zero, or fractional included) the converted value is `t * 9 / 5 + 32`;
in particular 0 ↦ 32, −40 ↦ −40 and 100 ↦ 212. -/
theorem tempF_affine :
    (∀ t : ℚ, tempF t = t * 9 / 5 + 32) ∧
    tempF 0 = 32 ∧ tempF (-40) = -40 ∧ tempF 100 = 212 := by
  refine ⟨fun t => ?_, by decide, by decide, by decide⟩
  unfold tempF
  ring

/-- C7: append-failure policy — when the file cannot be opened for append
(`SD.open` fails or the card never initialized), the cycle's record is
dropped: the state (and hence the card) is returned unchanged, exactly one
diagnostic line `Couldn't access file` goes to the dual sink, and the run
over any further cycles proceeds exactly as it would from that unchanged
state (no buffering, no retry, no stall). -/
theorem append_failure_drops_and_continues (e : CycleEnv) (s : SysState)
    (envs : List CycleEnv) (h : (s.sdOk && e.openOk) = false) :
    step e s = (s, ["Couldn't access file"]) ∧
    run (e :: envs) s = ((run envs s).1, "Couldn't access file" :: (run envs s).2) := by
  constructor
  · simp [step, h]
  · simp [run, step, h]

/-- Witness for C7: a cycle whose open fails drops its record while the
following cycle still appends normally. -/
theorem append_failure_drops_and_continues_witness :
    step ⟨⟨14, 5, 7, 29, 3, 2016⟩, some 1, some 25, some 400, false⟩ ⟨true, emptyFS⟩
      = (⟨true, emptyFS⟩, ["Couldn't access file"]) ∧
    run [⟨⟨14, 5, 7, 29, 3, 2016⟩, some 1, some 25, some 400, false⟩,
         ⟨⟨14, 5, 8, 29, 3, 2016⟩, some 1, some 25, some 400, true⟩] ⟨true, emptyFS⟩
      = ((run [⟨⟨14, 5, 8, 29, 3, 2016⟩, some 1, some 25, some 400, true⟩]
            ⟨true, emptyFS⟩).1,
          "Couldn't access file" ::
            (run [⟨⟨14, 5, 8, 29, 3, 2016⟩, some 1, some 25, some 400, true⟩]
              ⟨true, emptyFS⟩).2) :=
  append_failure_drops_and_continues _ _ _ rfl

/-- C8 counterexample: in a cycle whose `SD.open` fails, the formatted
record line is not printed to the dual sink — only the diagnostic is — so
"for every cycle the record line is also printed to the dual sink" is
false as stated. -/
theorem record_mirroring_cex :
    dataString ⟨⟨14, 5, 7, 29, 3, 2016⟩, some 1, some 25, some 400, false⟩
      = "14:5:7,1,77,400" ∧
    (step ⟨⟨14, 5, 7, 29, 3, 2016⟩, some 1, some 25, some 400, false⟩ ⟨true, emptyFS⟩).2
      = ["Couldn't access file"] ∧
    "14:5:7,1,77,400" ∉
      (step ⟨⟨14, 5, 7, 29, 3, 2016⟩, some 1, some 25, some 400, false⟩
        ⟨true, emptyFS⟩).2 := by
  decide

/-- C8 (amended): every successfully appended record is mirrored — in any
cycle whose open succeeds, the record line is both appended to the day's
file and printed to the dual sink. -/
theorem record_mirroring_on_success (e : CycleEnv) (s : SysState)
    (hsd : s.sdOk = true) (hop : e.openOk = true) :
    (step e s).2 = [dataString e] ∧
    (step e s).1.fs (csvName e.now)
      = some ((s.fs (csvName e.now)).getD [] ++ [dataString e]) := by
  simp [step, hsd, hop, fsWrite]

/-- Witness for the amended C8: the scenario cycle both stores and mirrors
its record line. -/
theorem record_mirroring_on_success_witness :
    (step ⟨⟨14, 5, 7, 29, 3, 2016⟩, some 1, some 25, some 400, true⟩ ⟨true, emptyFS⟩).2
      = [dataString ⟨⟨14, 5, 7, 29, 3, 2016⟩, some 1, some 25, some 400, true⟩] ∧
    (step ⟨⟨14, 5, 7, 29, 3, 2016⟩, some 1, some 25, some 400, true⟩ ⟨true, emptyFS⟩).1.fs
        (csvName ⟨14, 5, 7, 29, 3, 2016⟩)
      = some ((emptyFS (csvName ⟨14, 5, 7, 29, 3, 2016⟩)).getD [] ++
          [dataString ⟨⟨14, 5, 7, 29, 3, 2016⟩, some 1, some 25, some 400, true⟩]) :=
  record_mirroring_on_success _ _ rfl rfl

/-- C2 counterexample: boot on 2016-03-29 just before midnight, then one
cycle on 2016-03-30 — the first append destined for the new day creates
`3-30-16.csv` containing exactly one data line and no header, so after
n = 1 appends that day's file has 1 line (not n + 1 = 2) and the header
is not first. -/
theorem header_once_cex :
    (program ⟨true, true, true, ⟨23, 59, 0, 29, 3, 2016⟩, true⟩
        [⟨⟨0, 0, 30, 30, 3, 2016⟩, some 1, some 25, some 400, true⟩] emptyFS).1.fs
        "3-30-16.csv"
      = some ["0:0:30,1,77,400"] ∧
    "0:0:30,1,77,400" ≠ headerLine := by
  decide

/-- C2 (amended): the header-once invariant holds for the boot day — on a
freshly empty card, `setup` creates the boot day's file with the header,
and after the loop performs n appends all destined for that same day the
file holds exactly n + 1 lines: the header first, then the n data lines
in order. (For a day first seen after boot the file gets no header; see
the counterexample.) -/
theorem header_once_bootDay (senv : SetupEnv) (envs : List CycleEnv) (fs0 : FS)
    (hr : senv.rtcFound = true) (hsd : senv.sdInitOk = true)
    (hop : senv.headerOpenOk = true)
    (hfresh : fs0 (csvName senv.bootTime) = none)
    (hsame : ∀ e ∈ envs, csvName e.now = csvName senv.bootTime ∧ e.openOk = true) :
    (program senv envs fs0).1.fs (csvName senv.bootTime)
      = some (headerLine :: envs.map dataString) := by
  have hsetup : setup senv fs0 =
      { halted := false, sensorsBegan := true,
        serialOut := (if !senv.rtcRunning then ["RTC is NOT running!"] else []) ++
          ["Initializing SD card...", headerLine],
        state := ⟨true, fsWrite fs0 (csvName senv.bootTime) headerLine⟩ } := by
    simp [setup, hr, hsd, hop, hfresh]
  have hstart : (fsWrite fs0 (csvName senv.bootTime) headerLine)
      (csvName senv.bootTime) = some [headerLine] := by
    simp [fsWrite, hfresh]
  simp only [program, hsetup]
  exact run_fs_append envs ⟨true, fsWrite fs0 (csvName senv.bootTime) headerLine⟩
    (csvName senv.bootTime) [headerLine] rfl hstart hsame

/-- Witness for the amended C2: two same-day appends after boot leave the
boot-day file with the header followed by the two data lines. -/
theorem header_once_bootDay_witness :
    (program ⟨true, true, true, ⟨14, 5, 7, 29, 3, 2016⟩, true⟩
        [⟨⟨14, 5, 7, 29, 3, 2016⟩, some 1, some 25, some 400, true⟩,
         ⟨⟨14, 5, 8, 29, 3, 2016⟩, some 1, some 25, some 400, true⟩] emptyFS).1.fs
        (csvName ⟨14, 5, 7, 29, 3, 2016⟩)
      = some ["Time,UV,IR,Lum", "14:5:7,1,77,400", "14:5:8,1,77,400"] :=
  (header_once_bootDay ⟨true, true, true, ⟨14, 5, 7, 29, 3, 2016⟩, true⟩
    [⟨⟨14, 5, 7, 29, 3, 2016⟩, some 1, some 25, some 400, true⟩,
     ⟨⟨14, 5, 8, 29, 3, 2016⟩, some 1, some 25, some 400, true⟩] emptyFS
    rfl rfl rfl rfl (by decide)).trans (by decide)

/-- C9: storage-initialization failure is non-fatal — when the clock is
found but `SD.begin` fails, `setup` does not halt, the sensor `begin`
calls (which precede the SD check) have run, the diagnostic
`initialization failed!` is on the primary transport, no file is touched,
and the loop still runs every cycle thereafter with each append failing. -/
theorem sd_init_failure_nonfatal (senv : SetupEnv) (envs : List CycleEnv) (fs0 : FS)
    (hr : senv.rtcFound = true) (hsd : senv.sdInitOk = false) :
    (setup senv fs0).halted = false ∧
    (setup senv fs0).sensorsBegan = true ∧
    "initialization failed!" ∈ (setup senv fs0).serialOut ∧
    (setup senv fs0).state.fs = fs0 ∧
    (run envs (setup senv fs0).state).1.fs = fs0 ∧
    (run envs (setup senv fs0).state).2
      = envs.map (fun _ => "Couldn't access file") := by
  have hsetup : setup senv fs0 =
      { halted := false, sensorsBegan := true,
        serialOut := (if !senv.rtcRunning then ["RTC is NOT running!"] else []) ++
          ["Initializing SD card...", "initialization failed!"],
        state := ⟨false, fs0⟩ } := by
    simp [setup, hr, hsd]
  rw [hsetup, run_sd_down]
  refine ⟨rfl, rfl, ?_, rfl, rfl, rfl⟩
  simp

/-- Witness for C9: a two-cycle run after a failed SD initialization
leaves the empty card empty and prints the per-cycle diagnostic twice. -/
theorem sd_init_failure_nonfatal_witness :
    (setup ⟨true, true, false, ⟨14, 5, 7, 29, 3, 2016⟩, true⟩ emptyFS).halted = false ∧
    (setup ⟨true, true, false, ⟨14, 5, 7, 29, 3, 2016⟩, true⟩ emptyFS).sensorsBegan
      = true ∧
    "initialization failed!" ∈
      (setup ⟨true, true, false, ⟨14, 5, 7, 29, 3, 2016⟩, true⟩ emptyFS).serialOut ∧
    (setup ⟨true, true, false, ⟨14, 5, 7, 29, 3, 2016⟩, true⟩ emptyFS).state.fs
      = emptyFS ∧
    (run [⟨⟨14, 5, 7, 29, 3, 2016⟩, some 1, some 25, some 400, true⟩,
          ⟨⟨14, 5, 8, 29, 3, 2016⟩, some 1, some 25, some 400, true⟩]
        (setup ⟨true, true, false, ⟨14, 5, 7, 29, 3, 2016⟩, true⟩ emptyFS).state).1.fs
      = emptyFS ∧
    (run [⟨⟨14, 5, 7, 29, 3, 2016⟩, some 1, some 25, some 400, true⟩,
          ⟨⟨14, 5, 8, 29, 3, 2016⟩, some 1, some 25, some 400, true⟩]
        (setup ⟨true, true, false, ⟨14, 5, 7, 29, 3, 2016⟩, true⟩ emptyFS).state).2
      = ([⟨⟨14, 5, 7, 29, 3, 2016⟩, some 1, some 25, some 400, true⟩,
          ⟨⟨14, 5, 8, 29, 3, 2016⟩, some 1, some 25, some 400, true⟩] :
            List CycleEnv).map (fun _ => "Couldn't access file") :=
  sd_init_failure_nonfatal _ _ _ rfl rfl

/-- C10: the header is written only during `setup` and only for the
boot-time date — starting from a freshly empty card, any file other than
the boot day's ever present after a run was created by the loop's
`SD.open`, contains no header line, and consists solely of data lines of
cycles whose date derives that file's name. -/
theorem header_only_at_setup (senv : SetupEnv) (envs : List CycleEnv) (fs0 : FS)
    (hfresh : ∀ n, fs0 n = none)
    (name : String) (hname : name ≠ csvName senv.bootTime)
    (lines : List String)
    (hl : (run envs (setup senv fs0).state).1.fs name = some lines) :
    headerLine ∉ lines ∧
    ∀ l ∈ lines, ∃ e ∈ envs, csvName e.now = name ∧ l = dataString e := by
  have hQ : ∀ l ∈ lines,
      l ≠ headerLine ∧ ∃ e ∈ envs, csvName e.now = name ∧ l = dataString e := by
    refine run_lines_from
      (fun l => l ≠ headerLine ∧ ∃ e ∈ envs, csvName e.now = name ∧ l = dataString e)
      envs (setup senv fs0).state name ?_ ?_ lines hl
    · intro lines' hl'
      rw [setup_fs_other senv fs0 name hname, hfresh name] at hl'
      exact absurd hl' (by simp)
    · intro e he hename
      exact ⟨dataString_ne_header e, e, he, hename, rfl⟩
  exact ⟨fun hmem => (hQ headerLine hmem).1 rfl, fun l hml => (hQ l hml).2⟩

/-- Witness for C10: boot on 2016-03-29, one cycle after midnight — the
new day's file `3-30-16.csv` holds one data line, no header, and that
line belongs to the midnight cycle. -/
theorem header_only_at_setup_witness :
    headerLine ∉ ["0:0:30,1,77,400"] ∧
    ∀ l ∈ ["0:0:30,1,77,400"],
      ∃ e ∈ [(⟨⟨0, 0, 30, 30, 3, 2016⟩, some 1, some 25, some 400, true⟩ : CycleEnv)],
        csvName e.now = "3-30-16.csv" ∧ l = dataString e :=
  header_only_at_setup ⟨true, true, true, ⟨23, 59, 0, 29, 3, 2016⟩, true⟩
    [⟨⟨0, 0, 30, 30, 3, 2016⟩, some 1, some 25, some 400, true⟩] emptyFS
    (fun _ => rfl) "3-30-16.csv" (by decide) ["0:0:30,1,77,400"] (by decide)
